import Mathlib

/-!
Verification of the simEd stream-partitioned random-variate generators.

The development shallowly embeds the Python sources:
  * `simEd/generators/rng_mt19937.py` — the `rng` class wrapping numpy's
    MT19937 bit generator into a fixed table of 128 jump-ahead streams;
  * `simEd/generators/generators.py` — `_generateUniforms`;
  * `simEd/generators/generators_continuous.py` — `vunif`, `vexp`, `vnorm`;
  * `simEd/generators/generators_discrete.py` — `vbinom`;
  * `simEd/utils/_error_checks.py` — `_checkTypeMap`, `_checkType`,
    `_checkRange`.

Python floats are modelled as rationals; Python exceptions as an error type
threaded through `Except`; the process-wide stream table as an explicit
state value passed in and returned.
-/

set_option autoImplicit false

namespace SimEd

/-- Modelled from the spec: numpy's MT19937 bit generator (an external
dependency of the repository; the sources only wrap it).  The spec relies
only on: construction from an integer seed is deterministic, `jumped` is a
deterministic state transformation advancing the state by a large fixed
stride, and each draw deterministically yields a value in [0,1) while
advancing the state by one step.  The concrete arithmetic below is a
deterministic stand-in with exactly those properties. -/
structure MT19937 where
  state : Nat
  deriving DecidableEq

/-- Modelled from the spec: `MT19937(SeedSequence(seed))` — deterministic
construction of the root bit generator from an integer seed. -/
def MT19937.ofSeedSeq (seed : Nat) : MT19937 :=
  ⟨seed % 2 ^ 64⟩

/-- Modelled from the spec: `bit_generator.jumped()` — returns a new bit
generator whose state is the old one advanced by a large fixed stride. -/
def MT19937.jumped (g : MT19937) : MT19937 :=
  ⟨(g.state * 6364136223846793005 + 1442695040888963407) % 2 ^ 64⟩

/-- Modelled from the spec: one raw draw of the bit generator — a 53-bit
output word together with the advanced generator state. -/
def MT19937.next (g : MT19937) : Nat × MT19937 :=
  (g.state % 2 ^ 53, ⟨(g.state * 2862933555777941757 + 3037000493) % 2 ^ 64⟩)

/-- Modelled from the spec: `Generator.uniform(0,1)`'s underlying U(0,1)
draw — the output word scaled into [0,1), plus the advanced state. -/
def MT19937.nextU01 (g : MT19937) : ℚ × MT19937 :=
  let (w, g2) := g.next
  ((w : ℚ) / 2 ^ 53, g2)

/-- The generator state advanced by one uniform draw. -/
def MT19937.advance (g : MT19937) : MT19937 := g.nextU01.2

/-- The process-wide stream table (`rng._streams`), as explicit state. -/
structure RngState where
  streams : List MT19937
  deriving DecidableEq

/-- `rng._num_streams = 128` (`rng.numStreams()`). -/
def NUM_STREAMS : Nat := 128

/-- The seeding loop of `rng.set_seed`: starting from a bit generator,
place the current bit generator at each successive index, replacing it by
its `jumped` copy for the next index. -/
def buildStreams : MT19937 → Nat → List MT19937
  | _, 0 => []
  | bg, Nat.succ k => bg :: buildStreams bg.jumped k

/-- `rng.set_seed(seed)`: build the root bit generator from the seed and
fill the entire table by chained jump-ahead.  The prior table is fully
replaced, hence the unused previous state argument. -/
def setSeed (seed : Nat) (_prev : RngState) : RngState :=
  ⟨buildStreams (MT19937.ofSeedSeq seed) NUM_STREAMS⟩

/-- Python list indexing: a non-negative index must be below the length;
a negative index `i` with `-len ≤ i` denotes position `len + i`; anything
else raises IndexError (here `none`). -/
def pyNormIdx (len : Nat) (i : Int) : Option Nat :=
  if 0 ≤ i then
    if i < (len : Int) then some i.toNat else none
  else
    if -i ≤ (len : Int) then some (len - (-i).toNat) else none

/-- `rng.uniform(a, b, which_stream)`: `cls._streams[which_stream].uniform(a,b)`.
Python list indexing resolves the stream index (negative indices count from
the end; out-of-range raises IndexError, modelled as `none`); the chosen
generator produces `a + (b-a)*u` and its entry is advanced in place. -/
def rngUniform (a b : ℚ) (whichStream : Int) (st : RngState) :
    Option (ℚ × RngState) :=
  match pyNormIdx st.streams.length whichStream with
  | none => none
  | some j =>
    match st.streams.get? j with
    | none => none
    | some g =>
      let (u, g2) := g.nextU01
      some (a + (b - a) * u, ⟨st.streams.set j g2⟩)

/-- The result of `_generateUniforms`: a scalar for `n == 1`, otherwise a
list built in generation order. -/
inductive UniformsResult where
  | scalar (u : ℚ)
  | vec (us : List ℚ)
  deriving DecidableEq

/-- The antithetic transform applied to one raw draw: `if antithetic: u = 1 - u`. -/
def adjustAnti (antithetic : Bool) (u : ℚ) : ℚ :=
  if antithetic then 1 - u else u

/-- The `else` branch loop of `_generateUniforms`: `for _ in range(n)` draw,
apply the antithetic transform, append. -/
def genLoop (count : Nat) (stream : Int) (antithetic : Bool) (st : RngState) :
    Option (List ℚ × RngState) :=
  match count with
  | 0 => some ([], st)
  | Nat.succ k =>
    match rngUniform 0 1 stream st with
    | none => none
    | some (u, st1) =>
      match genLoop k stream antithetic st1 with
      | none => none
      | some (us, st2) => some (adjustAnti antithetic u :: us, st2)

/-- `_generateUniforms(n, stream, antithetic)`: one scalar draw when
`n == 1`, otherwise the loop collecting `n` draws into a list. -/
def generateUniforms (n : Nat) (stream : Int) (antithetic : Bool)
    (st : RngState) : Option (UniformsResult × RngState) :=
  if n = 1 then
    match rngUniform 0 1 stream st with
    | none => none
    | some (u, st1) => some (.scalar (adjustAnti antithetic u), st1)
  else
    match genLoop n stream antithetic st with
    | none => none
    | some (us, st1) => some (.vec us, st1)

/-! ### Python values and the error-checking layer -/

/-- Python runtime values, restricted to the kinds the generator layer
manipulates. -/
inductive PyVal where
  | int (n : Int)
  | float (q : ℚ)
  | bool (b : Bool)
  | str (s : String)
  deriving DecidableEq

/-- Python runtime types of the above values. -/
inductive PyType where
  | int
  | float
  | bool
  | str
  deriving DecidableEq

/-- Python `type(obj)`. -/
def PyVal.typeOf : PyVal → PyType
  | .int _ => .int
  | .float _ => .float
  | .bool _ => .bool
  | .str _ => .str

/-- Python `isinstance(obj, t)` for the types above; note that `bool` is a
subclass of `int` in Python, so a bool is an instance of `int`. -/
def isinst : PyVal → PyType → Bool
  | .int _, .int => true
  | .bool _, .bool => true
  | .bool _, .int => true
  | .float _, .float => true
  | .str _, .str => true
  | _, _ => false

/-- The `type_map` dictionary of `_checkTypeMap`, restricted to keys a
plain Python value can produce: `float ↦ int` ("allow an int to act as
float") and `int ↦ int`.  The numpy-type keys can never equal the type of
a plain Python value and are dropped; `bool` and `str` are not keys. -/
def typeMapLookup : PyType → Option PyType
  | .float => some .int
  | .int => some .int
  | _ => none

/-- Membership test `t in type_map`. -/
def inTypeMap (t : PyType) : Bool :=
  (typeMapLookup t).isSome

/-- Python exceptions that the embedded code can raise. -/
inductive PyErr where
  | typeError
  | valueError
  | keyError
  | indexError
  deriving DecidableEq

instance instDecEqExcept {ε α : Type} [DecidableEq ε] [DecidableEq α] :
    DecidableEq (Except ε α) := fun x y =>
  match x, y with
  | .error a, .error b =>
    if h : a = b then .isTrue (congrArg Except.error h)
    else .isFalse (fun hc => h (Except.error.inj hc))
  | .ok a, .ok b =>
    if h : a = b then .isTrue (congrArg Except.ok h)
    else .isFalse (fun hc => h (Except.ok.inj hc))
  | .error _, .ok _ => .isFalse (fun hc => Except.noConfusion hc)
  | .ok _, .error _ => .isFalse (fun hc => Except.noConfusion hc)

/-- `_checkTypeMap(obj, type_)`: when `type_` or `type(obj)` is a key of
`type_map`, evaluate `isinstance(obj, (type_, type_map[type_]))` — where
the subscript raises KeyError if `type_` itself is not a key — otherwise
plain `isinstance(obj, type_)`.  Returns the `bad_type` flag. -/
def checkTypeMap (obj : PyVal) (t : PyType) : Except PyErr Bool :=
  if inTypeMap t || inTypeMap obj.typeOf then
    match typeMapLookup t with
    | none => .error .keyError
    | some t2 => .ok (!(isinst obj t || isinst obj t2))
  else
    .ok (!(isinst obj t))

/-- A `type_` argument of `_checkType`: a single type or a `|`-union. -/
inductive PyTypeSpec where
  | single (t : PyType)
  | union (ts : List PyType)
  deriving DecidableEq

/-- The union loop of `_checkType`: `good |= not _checkTypeMap(obj, t)`
over all union members, with no short-circuiting. -/
def checkTypeUnionLoop (obj : PyVal) : List PyType → Bool → Except PyErr Bool
  | [], good => .ok good
  | t :: ts, good =>
    match checkTypeMap obj t with
    | .error e => .error e
    | .ok bad => checkTypeUnionLoop obj ts (good || !bad)

/-- `_checkType(obj, type_)`: raises TypeError when the check fails (and
propagates the KeyError that `_checkTypeMap` can raise). -/
def checkType (obj : PyVal) (spec : PyTypeSpec) : Except PyErr Unit :=
  match spec with
  | .union ts =>
    match checkTypeUnionLoop obj ts false with
    | .error e => .error e
    | .ok good => if good then .ok () else .error .typeError
  | .single t =>
    match checkTypeMap obj t with
    | .error e => .error e
    | .ok bad => if bad then .error .typeError else .ok ()

/-- The numeric value a Python object contributes to comparisons
(`True` compares as 1, `False` as 0). -/
def PyVal.asNum : PyVal → Option ℚ
  | .int n => some (n : ℚ)
  | .float q => some q
  | .bool b => some (if b then 1 else 0)
  | .str _ => none

/-- `_checkRange(obj, min_, max_, msg, include_min, include_max)`: the
object must first pass `_checkType(obj, int | float)` whenever a bound is
given; then the low bound and afterwards the high bound are compared,
strictly or not according to the include flags, raising ValueError on
violation.  (The source runs the `int | float` type check once per given
bound and type-checks its own literal boolean include flags; both repeats
are no-ops and collapsed here.) -/
def checkRange (obj : PyVal) (omin omax : Option ℚ)
    (includeMin includeMax : Bool) : Except PyErr Unit :=
  match (if omin.isSome || omax.isSome
         then checkType obj (.union [.int, .float]) else .ok ()) with
  | .error e => .error e
  | .ok _ =>
    let v := obj.asNum.getD 0
    let lowBad := match omin with
      | some m => (includeMin && decide (v < m)) || (!includeMin && decide (v ≤ m))
      | none => false
    let highBad := match omax with
      | some m => (includeMax && decide (m < v)) || (!includeMax && decide (m ≤ v))
      | none => false
    if lowBad then .error .valueError
    else if highBad then .error .valueError
    else .ok ()

/-- Run a list of checks in source order; the first raised error wins. -/
def seqE : List (Except PyErr Unit) → Except PyErr Unit
  | [] => .ok ()
  | e :: es =>
    match e with
    | .error x => .error x
    | .ok _ => seqE es

/-- The integer a Python value denotes once it has passed an `int` type
check (a bool counts as 0 or 1). -/
def PyVal.toIntVal : PyVal → Int
  | .int n => n
  | .bool b => if b then 1 else 0
  | .float _ => 0
  | .str _ => 0

/-- The rational a Python value denotes once it has passed a numeric type
check. -/
def PyVal.toQVal (v : PyVal) : ℚ :=
  v.asNum.getD 0

/-- Python truthiness, as used by `if antithetic:` and `if as_dict:`. -/
def PyVal.truthy : PyVal → Bool
  | .int n => decide (n ≠ 0)
  | .float q => decide (q ≠ 0)
  | .bool b => b
  | .str s => !s.isEmpty

/-! ### The variate functions -/

/-- What a variate function returns: a scalar variate, a list of variates,
or the introspection record `{"u": ..., "x": ...}` whose two fields have
the shape `_generateUniforms` produced (scalars for `n == 1`). -/
inductive VariateResult where
  | scalar (x : ℚ)
  | vec (xs : List ℚ)
  | record (u x : UniformsResult)
  deriving DecidableEq

/-- The plain (non-record) return value of a variate function. -/
def UniformsResult.toVariate : UniformsResult → VariateResult
  | .scalar q => .scalar q
  | .vec qs => .vec qs

/-- Elementwise application of a quantile function, preserving shape:
scipy's `ppf` maps a scalar to a scalar and an array elementwise. -/
def applyPpf (f : ℚ → ℚ) : UniformsResult → UniformsResult
  | .scalar u => .scalar (f u)
  | .vec us => .vec (us.map f)

/-- `scipy.stats.uniform.ppf(u, loc, scale) = loc + scale * u` — the
quantile function of the uniform distribution on `[loc, loc + scale]`. -/
def uniformPpf (loc scale u : ℚ) : ℚ :=
  loc + scale * u

/-- Modelled from the spec: `scipy.stats.expon.ppf(u, scale)` — a trusted
black-box quantile capability external to the core; the claims rely only
on it being a fixed deterministic function of its arguments, so a simple
deterministic representative is used. -/
def exponPpf (scale u : ℚ) : ℚ :=
  scale * u

/-- Modelled from the spec: `scipy.stats.norm.ppf(u, loc, scale)` — a
trusted black-box quantile capability; only determinism matters for the
claims. -/
def normPpf (loc scale u : ℚ) : ℚ :=
  loc + scale * u

/-- Modelled from the spec: `scipy.stats.binom.ppf(u, size, prob)` followed
by `astype(int)` — a trusted black-box integer-valued quantile capability;
only determinism matters for the claims. -/
def binomPpf (size prob u : ℚ) : ℚ :=
  ((size * prob * u).floor : ℚ)

/-- The validation prologue of `vunif`, statement by statement. -/
def vunifChecks (n mn mx stream antithetic asDict : PyVal) :
    Except PyErr Unit :=
  seqE [checkType n (.single .int),
        checkType stream (.single .int),
        checkType mn (.single .float),
        checkType mx (.single .float),
        checkType antithetic (.single .bool),
        checkType asDict (.single .bool),
        checkRange n (some 1) none true true,
        checkRange mx mn.asNum none true true,
        checkRange stream (some 0) (some ((NUM_STREAMS - 1 : Nat) : ℚ)) true true]

/-- `vunif(n, min_, max_, stream, antithetic, as_dict)`: validate, draw the
uniforms, invert through `uniform.ppf(u, loc=min_, scale=max_-min_)`, and
return either the record or the variates alone. -/
def vunif (n mn mx stream antithetic asDict : PyVal) (st : RngState) :
    Except PyErr VariateResult × RngState :=
  match vunifChecks n mn mx stream antithetic asDict with
  | .error e => (.error e, st)
  | .ok _ =>
    match generateUniforms n.toIntVal.toNat stream.toIntVal antithetic.truthy st with
    | none => (.error .indexError, st)
    | some (u, st1) =>
      let x := applyPpf (uniformPpf mn.toQVal (mx.toQVal - mn.toQVal)) u
      if asDict.truthy then (.ok (.record u x), st1)
      else (.ok x.toVariate, st1)

/-- The validation prologue of `vexp`. -/
def vexpChecks (n rate stream antithetic asDict : PyVal) :
    Except PyErr Unit :=
  seqE [checkType n (.single .int),
        checkType stream (.single .int),
        checkType rate (.union [.float, .int]),
        checkType antithetic (.single .bool),
        checkType asDict (.single .bool),
        checkRange n (some 1) none true true,
        checkRange rate (some 0) none false true,
        checkRange stream (some 0) (some ((NUM_STREAMS - 1 : Nat) : ℚ)) true true]

/-- `vexp(n, rate, stream, antithetic, as_dict)`: validate, draw, invert
through `expon.ppf(u, scale = 1/rate)`. -/
def vexp (n rate stream antithetic asDict : PyVal) (st : RngState) :
    Except PyErr VariateResult × RngState :=
  match vexpChecks n rate stream antithetic asDict with
  | .error e => (.error e, st)
  | .ok _ =>
    match generateUniforms n.toIntVal.toNat stream.toIntVal antithetic.truthy st with
    | none => (.error .indexError, st)
    | some (u, st1) =>
      let x := applyPpf (exponPpf (1 / rate.toQVal)) u
      if asDict.truthy then (.ok (.record u x), st1)
      else (.ok x.toVariate, st1)

/-- The validation prologue of `vbinom`. -/
def vbinomChecks (n size prob stream antithetic asDict : PyVal) :
    Except PyErr Unit :=
  seqE [checkType n (.single .int),
        checkType size (.single .int),
        checkType stream (.single .int),
        checkType prob (.single .float),
        checkType antithetic (.single .bool),
        checkType asDict (.single .bool),
        checkRange n (some 1) none true true,
        checkRange size (some 0) none true true,
        checkRange prob (some 0) (some 1) false true,
        checkRange stream (some 0) (some ((NUM_STREAMS - 1 : Nat) : ℚ)) true true]

/-- `vbinom(n, size, prob, stream, antithetic, as_dict)`: validate, draw,
invert through `binom.ppf(u, n=size, p=prob).astype(int)`. -/
def vbinom (n size prob stream antithetic asDict : PyVal) (st : RngState) :
    Except PyErr VariateResult × RngState :=
  match vbinomChecks n size prob stream antithetic asDict with
  | .error e => (.error e, st)
  | .ok _ =>
    match generateUniforms n.toIntVal.toNat stream.toIntVal antithetic.truthy st with
    | none => (.error .indexError, st)
    | some (u, st1) =>
      let x := applyPpf (binomPpf size.toQVal prob.toQVal) u
      if asDict.truthy then (.ok (.record u x), st1)
      else (.ok x.toVariate, st1)

/-- The validation prologue of `vnorm`.  The source's flag loop is
`for _ in [antithetic, as_dict]: _checkType(antithetic, bool)` — it checks
`antithetic` twice and never checks `as_dict`; that behaviour is kept. -/
def vnormChecks (n mean sd stream antithetic _asDict : PyVal) :
    Except PyErr Unit :=
  seqE [checkType n (.single .int),
        checkType stream (.single .int),
        checkType mean (.union [.float, .int]),
        checkType sd (.union [.float, .int]),
        checkType antithetic (.single .bool),
        checkType antithetic (.single .bool),
        checkRange n (some 1) none true true,
        checkRange sd (some 0) none false true,
        checkRange stream (some 0) (some ((NUM_STREAMS - 1 : Nat) : ℚ)) true true]

/-- `vnorm(n, mean, sd, stream, antithetic, as_dict)`: validate (with the
source's defective flag loop), draw, invert through
`norm.ppf(u, loc=mean, scale=sd)`. -/
def vnorm (n mean sd stream antithetic asDict : PyVal) (st : RngState) :
    Except PyErr VariateResult × RngState :=
  match vnormChecks n mean sd stream antithetic asDict with
  | .error e => (.error e, st)
  | .ok _ =>
    match generateUniforms n.toIntVal.toNat stream.toIntVal antithetic.truthy st with
    | none => (.error .indexError, st)
    | some (u, st1) =>
      let x := applyPpf (normPpf mean.toQVal sd.toQVal) u
      if asDict.truthy then (.ok (.record u x), st1)
      else (.ok x.toVariate, st1)

/-! ### Derived descriptions used to state the theorems -/

/-- The generator at a table index (defaulting outside the table; only
used at valid indices). -/
def streamAt (st : RngState) (j : Nat) : MT19937 :=
  (st.streams.get? j).getD ⟨0⟩

/-- The successive raw U(0,1) values a single generator produces. -/
def drawList : Nat → MT19937 → List ℚ
  | 0, _ => []
  | Nat.succ k, g => g.nextU01.1 :: drawList k g.nextU01.2

/-- Closed-form description of `_generateUniforms` on a valid stream:
the scalar (for `n = 1`) or list of `n` antithetic-adjusted draws of the
chosen generator. -/
def uniformsModel (n : Nat) (antithetic : Bool) (g : MT19937) :
    UniformsResult :=
  if n = 1 then .scalar (adjustAnti antithetic g.nextU01.1)
  else .vec ((drawList n g).map (adjustAnti antithetic))

/-- Complement every produced value, preserving shape. -/
def UniformsResult.complement : UniformsResult → UniformsResult
  | .scalar u => .scalar (1 - u)
  | .vec us => .vec (us.map (fun u => 1 - u))

/-- Shape of a uniforms result: `none` for a scalar, `some k` for a list
of length `k`. -/
def UniformsResult.shape : UniformsResult → Option Nat
  | .scalar _ => none
  | .vec us => some us.length

/-- Every produced value satisfies a predicate. -/
def UniformsResult.allVals (p : ℚ → Prop) : UniformsResult → Prop
  | .scalar u => p u
  | .vec us => ∀ u ∈ us, p u

/-! ### Structural lemmas -/

theorem buildStreams_length (g : MT19937) (n : Nat) :
    (buildStreams g n).length = n := by
  induction n generalizing g with
  | zero => rfl
  | succ k ih => simp [buildStreams, ih]

theorem buildStreams_get? (g : MT19937) (n i : Nat) (h : i < n) :
    (buildStreams g n).get? i = some (MT19937.jumped^[i] g) := by
  induction n generalizing g i with
  | zero => omega
  | succ k ih =>
    cases i with
    | zero => simp [buildStreams]
    | succ m =>
      rw [buildStreams, List.get?_cons_succ, ih g.jumped m (by omega),
        Function.iterate_succ_apply]

theorem list_set_self {α : Type} (l : List α) (j : Nat) (a : α)
    (h : l.get? j = some a) : l.set j a = l := by
  induction l generalizing j with
  | nil => rfl
  | cons x xs ih =>
    cases j with
    | zero => simp_all
    | succ k =>
      simp only [List.get?_cons_succ] at h
      simp [List.set, ih k h]

theorem rngUniform_spec (j : Nat) (st : RngState)
    (hj : j < st.streams.length) :
    rngUniform 0 1 (j : Int) st
      = some ((streamAt st j).nextU01.1,
              ⟨st.streams.set j (MT19937.advance (streamAt st j))⟩) := by
  obtain ⟨g, hg⟩ : ∃ g, st.streams.get? j = some g :=
    ⟨st.streams.get ⟨j, hj⟩, List.get?_eq_get hj⟩
  have hA : streamAt st j = g := by unfold streamAt; rw [hg]; rfl
  have hidx : pyNormIdx st.streams.length (j : Int) = some j := by
    unfold pyNormIdx
    rw [if_pos (Int.natCast_nonneg j), if_pos (by exact_mod_cast hj)]
    simp
  rw [rngUniform, hidx]
  simp only [List.get?_eq_getElem?] at hg
  simp [hg, hA, MT19937.nextU01, MT19937.next, MT19937.advance]

theorem genLoop_spec (n j : Nat) (anti : Bool) (st : RngState)
    (hj : j < st.streams.length) :
    genLoop n (j : Int) anti st
      = some ((drawList n (streamAt st j)).map (adjustAnti anti),
              ⟨st.streams.set j (MT19937.advance^[n] (streamAt st j))⟩) := by
  induction n generalizing st with
  | zero =>
    have hA : streamAt st j = st.streams.get ⟨j, hj⟩ := by
      unfold streamAt; rw [List.get?_eq_get hj]; rfl
    have hset : st.streams.set j (streamAt st j) = st.streams :=
      list_set_self st.streams j (streamAt st j)
        (by rw [List.get?_eq_get hj, hA])
    simp only [genLoop, drawList, List.map_nil, Function.iterate_zero,
      id_eq]
    rw [hset]
  | succ k ih =>
    rw [genLoop, rngUniform_spec j st hj]
    have hlen : j <
        (RngState.mk (st.streams.set j
          (MT19937.advance (streamAt st j)))).streams.length := by
      simpa [List.length_set] using hj
    have hmid : streamAt
        (RngState.mk (st.streams.set j (MT19937.advance (streamAt st j)))) j
        = MT19937.advance (streamAt st j) := by
      unfold streamAt
      simp only [List.get?_eq_getElem?]
      rw [List.getElem?_set_eq_of_lt _ hj]
      rfl
    simp only [ih _ hlen, hmid, List.set_set]
    rw [Function.iterate_succ_apply]
    rw [show drawList (k + 1) (streamAt st j)
          = (streamAt st j).nextU01.1
            :: drawList k ((streamAt st j).advance) from rfl]
    rw [List.map_cons]

theorem generateUniforms_spec (n j : Nat) (anti : Bool) (st : RngState)
    (hn : 1 ≤ n) (hj : j < st.streams.length) :
    generateUniforms n (j : Int) anti st
      = some (uniformsModel n anti (streamAt st j),
              ⟨st.streams.set j (MT19937.advance^[n] (streamAt st j))⟩) := by
  by_cases h1 : n = 1
  · subst h1
    rw [generateUniforms, if_pos rfl, rngUniform_spec j st hj]
    simp [uniformsModel, MT19937.advance]
  · rw [generateUniforms, if_neg h1, genLoop_spec n j anti st hj]
    simp [uniformsModel, h1]

theorem setSeed_length (s : Nat) (p : RngState) :
    (setSeed s p).streams.length = NUM_STREAMS :=
  buildStreams_length _ _

theorem get?_streamAt (st : RngState) (j : Nat)
    (hj : j < st.streams.length) :
    st.streams.get? j = some (streamAt st j) := by
  unfold streamAt
  rw [List.get?_eq_get hj]
  rfl

theorem drawList_length (n : Nat) (g : MT19937) :
    (drawList n g).length = n := by
  induction n generalizing g with
  | zero => rfl
  | succ k ih => simp [drawList, ih]

theorem applyPpf_shape (f : ℚ → ℚ) (u : UniformsResult) :
    (applyPpf f u).shape = u.shape := by
  cases u <;> simp [applyPpf, UniformsResult.shape]

theorem nextU01_bounds (g : MT19937) :
    0 ≤ g.nextU01.1 ∧ g.nextU01.1 < 1 := by
  unfold MT19937.nextU01 MT19937.next
  refine ⟨by positivity, ?_⟩
  rw [div_lt_one (by positivity)]
  exact_mod_cast Nat.mod_lt _ (by positivity)

theorem drawList_mem_bounds (n : Nat) (g : MT19937) :
    ∀ u ∈ drawList n g, 0 ≤ u ∧ u < 1 := by
  induction n generalizing g with
  | zero => simp [drawList]
  | succ k ih =>
    intro u hu
    rw [drawList] at hu
    rcases List.mem_cons.mp hu with h | h
    · subst h; exact nextU01_bounds g
    · exact ih _ u h

theorem vunifChecks_ok (n j : Nat) (mn mx : ℚ) (a d : Bool)
    (hn : 1 ≤ n) (hj : j < NUM_STREAMS) (hm : mn ≤ mx) :
    vunifChecks (.int (n : Int)) (.float mn) (.float mx) (.int (j : Int))
      (.bool a) (.bool d) = .ok () := by
  have h2 : ¬(mx < mn) := not_lt.mpr hm
  have hn0 : ¬(n = 0) := by omega
  have h3p : ¬((j : ℚ) < 0) := not_lt.mpr (by positivity)
  have h4p : ¬(((NUM_STREAMS - 1 : Nat) : ℚ) < (j : ℚ)) := by
    rw [not_lt]
    unfold NUM_STREAMS at hj ⊢
    exact_mod_cast Nat.lt_succ_iff.mp hj
  simp [vunifChecks, seqE, checkRange, checkType, checkTypeUnionLoop,
    checkTypeMap, inTypeMap, typeMapLookup, isinst, PyVal.typeOf,
    PyVal.asNum, h2, hn0, h3p, h4p]

/-! ### The claims -/

/-- Claim C1: seeded generation is deterministic.  For every integer seed
`s`, stream index `i` below `numStreams()`, and count `k ≥ 1`, a
`set_seed(s)` reset makes the subsequent `k` uniform draws from stream `i`
independent of whatever table state preceded the reset, so two
reset-then-draw runs yield identical sequences; in particular the
`set_seed(42); vexp(1, rate=2.0, stream=0)` scenario returns the identical
value after a second `set_seed(42)` reset. -/
theorem seeded_determinism :
    (∀ (s i k : Nat) (st1 st2 : RngState), i < NUM_STREAMS → 1 ≤ k →
      generateUniforms k (i : Int) false (setSeed s st1)
        = generateUniforms k (i : Int) false (setSeed s st2))
    ∧ (∀ st1 st2 : RngState,
      vexp (.int 1) (.float 2) (.int 0) (.bool false) (.bool false)
          (setSeed 42 st1)
        = vexp (.int 1) (.float 2) (.int 0) (.bool false) (.bool false)
          (setSeed 42 st2)) :=
  ⟨fun _ _ _ _ _ _ _ => rfl, fun _ _ => rfl⟩

theorem seeded_determinism_witness :
    generateUniforms 1 0 false (setSeed 42 ⟨[]⟩)
      = generateUniforms 1 0 false (setSeed 42 ⟨[MT19937.mk 5]⟩) :=
  seeded_determinism.1 42 0 1 ⟨[]⟩ ⟨[MT19937.mk 5]⟩ (by decide) (by decide)

/-- Claim C2: `set_seed(s)` builds one root bit generator from `s` and
fills the entire fixed-size table of `numStreams()` entries — entry 0
wraps the root, and each entry `i+1` wraps the `jumped` transform of
entry `i`'s bit generator.  Every prior table entry is replaced, so
re-deriving from the same seed reproduces the identical table. -/
theorem stream_table_construction (s : Nat) (prev prev2 : RngState) :
    (setSeed s prev).streams.length = NUM_STREAMS
    ∧ (setSeed s prev).streams.get? 0 = some (MT19937.ofSeedSeq s)
    ∧ (∀ i, i + 1 < NUM_STREAMS →
        (setSeed s prev).streams.get? (i + 1)
          = ((setSeed s prev).streams.get? i).map MT19937.jumped)
    ∧ setSeed s prev = setSeed s prev2 := by
  refine ⟨buildStreams_length _ _, ?_, ?_, rfl⟩
  · show (buildStreams (MT19937.ofSeedSeq s) NUM_STREAMS).get? 0 = _
    rw [buildStreams_get? _ _ 0 (by decide)]
    rfl
  · intro i hi
    show (buildStreams (MT19937.ofSeedSeq s) NUM_STREAMS).get? (i + 1)
      = ((buildStreams (MT19937.ofSeedSeq s) NUM_STREAMS).get? i).map
          MT19937.jumped
    rw [buildStreams_get? _ _ (i + 1) hi,
      buildStreams_get? _ _ i (by omega), Option.map_some',
      Function.iterate_succ_apply']

theorem stream_table_construction_witness :
    (setSeed 7 ⟨[]⟩).streams.get? 4
        = ((setSeed 7 ⟨[]⟩).streams.get? 3).map MT19937.jumped
    ∧ (setSeed 7 ⟨[]⟩).streams.length = NUM_STREAMS := by
  have h := stream_table_construction 7 ⟨[]⟩ ⟨[]⟩
  exact ⟨h.2.2.1 3 (by decide), h.1⟩

/-- Claim C5: each of `vunif`, `vexp`, `vbinom`, `vnorm` raises ValueError
for `n = 0`, `stream = -1`, `stream = numStreams()`, as well as `vexp` for
`rate = 0`, `vbinom` for `prob = 0` and `prob > 1`, and `vnorm` for
`sd = 0`; in every case the error is raised before any uniform is drawn,
leaving the stream table untouched. -/
theorem range_error_enforcement (st : RngState) :
    vunif (.int 0) (.float 0) (.float 1) (.int 0) (.bool false)
        (.bool false) st = (.error .valueError, st)
    ∧ vunif (.int 1) (.float 0) (.float 1) (.int (-1)) (.bool false)
        (.bool false) st = (.error .valueError, st)
    ∧ vunif (.int 1) (.float 0) (.float 1) (.int 128) (.bool false)
        (.bool false) st = (.error .valueError, st)
    ∧ vexp (.int 0) (.float 1) (.int 0) (.bool false) (.bool false) st
        = (.error .valueError, st)
    ∧ vexp (.int 1) (.float 1) (.int (-1)) (.bool false) (.bool false) st
        = (.error .valueError, st)
    ∧ vexp (.int 1) (.float 1) (.int 128) (.bool false) (.bool false) st
        = (.error .valueError, st)
    ∧ vexp (.int 1) (.float 0) (.int 0) (.bool false) (.bool false) st
        = (.error .valueError, st)
    ∧ vbinom (.int 0) (.int 10) (.float (mkRat 1 2)) (.int 0) (.bool false)
        (.bool false) st = (.error .valueError, st)
    ∧ vbinom (.int 1) (.int 10) (.float (mkRat 1 2)) (.int (-1)) (.bool false)
        (.bool false) st = (.error .valueError, st)
    ∧ vbinom (.int 1) (.int 10) (.float (mkRat 1 2)) (.int 128) (.bool false)
        (.bool false) st = (.error .valueError, st)
    ∧ vbinom (.int 1) (.int 10) (.float 0) (.int 0) (.bool false)
        (.bool false) st = (.error .valueError, st)
    ∧ vbinom (.int 1) (.int 10) (.float (mkRat 3 2)) (.int 0) (.bool false)
        (.bool false) st = (.error .valueError, st)
    ∧ vnorm (.int 0) (.float 0) (.float 1) (.int 0) (.bool false)
        (.bool false) st = (.error .valueError, st)
    ∧ vnorm (.int 1) (.float 0) (.float 1) (.int (-1)) (.bool false)
        (.bool false) st = (.error .valueError, st)
    ∧ vnorm (.int 1) (.float 0) (.float 1) (.int 128) (.bool false)
        (.bool false) st = (.error .valueError, st)
    ∧ vnorm (.int 1) (.float 0) (.float 0) (.int 0) (.bool false)
        (.bool false) st = (.error .valueError, st) :=
  ⟨rfl, rfl, rfl, rfl, rfl, rfl, rfl, rfl, rfl, rfl, rfl, rfl, rfl, rfl,
   rfl, rfl⟩

set_option maxRecDepth 16000 in
/-- Claim C10: the runtime type map equates int with float — every integer
passes a `float` type check, `vunif` accepts integer `min_`/`max_`
arguments, and `vbinom` accepts the integer probability 1 (while the
integer 2 is rejected by the range check, not the type check). -/
theorem int_accepted_for_float :
    (∀ k : Int, checkType (.int k) (.single .float) = .ok ())
    ∧ Prod.fst (vunif (.int 1) (.int 0) (.int 2) (.int 0) (.bool false)
        (.bool false) (setSeed 0 ⟨[]⟩)) = .ok (.scalar 0)
    ∧ Prod.fst (vbinom (.int 1) (.int 10) (.int 1) (.int 0) (.bool false)
        (.bool false) (setSeed 0 ⟨[]⟩)) = .ok (.scalar 0)
    ∧ Prod.fst (vbinom (.int 1) (.int 10) (.int 2) (.int 0) (.bool false)
        (.bool false) (setSeed 0 ⟨[]⟩)) = .error .valueError :=
  ⟨fun _ => rfl, by with_unfolding_all decide, by with_unfolding_all decide,
   by with_unfolding_all decide⟩

theorem uniformsModel_complement (n : Nat) (g : MT19937) :
    uniformsModel n true g = (uniformsModel n false g).complement := by
  unfold uniformsModel
  by_cases h1 : n = 1
  · simp [h1, adjustAnti, UniformsResult.complement]
  · simp only [h1, if_false, UniformsResult.complement, List.map_map]
    refine congrArg UniformsResult.vec (List.map_congr_left ?_)
    intro u _
    simp [adjustAnti, Function.comp]

/-- Claim C3: antithetic identity — starting from the same state, the
antithetic run of `_generateUniforms` produces exactly the complements
`1 - u` of the plain run's values, position by position, and ends in the
identical stream-table state: the flag changes neither which stream
advances nor by how many draws. -/
theorem antithetic_identity (n j : Nat) (st : RngState)
    (hn : 1 ≤ n) (hj : j < st.streams.length) :
    generateUniforms n (j : Int) true st
      = Option.map (fun p => (p.1.complement, p.2))
          (generateUniforms n (j : Int) false st) := by
  rw [generateUniforms_spec n j true st hn hj,
    generateUniforms_spec n j false st hn hj, Option.map_some']
  exact congrArg some (congrArg (fun u => (u, _))
    (uniformsModel_complement n (streamAt st j)))

theorem antithetic_identity_witness :
    generateUniforms 2 0 true (setSeed 0 ⟨[]⟩)
      = Option.map (fun p => (p.1.complement, p.2))
          (generateUniforms 2 0 false (setSeed 0 ⟨[]⟩)) :=
  antithetic_identity 2 0 (setSeed 0 ⟨[]⟩) (by decide)
    (by rw [setSeed_length]; decide)

/-- Claim C9: frame property — for a valid stream `j` and `n ≥ 1`,
`_generateUniforms(n, j, antithetic)` succeeds, advances table entry `j`
by exactly `n` draws, leaves every entry `i ≠ j` unchanged, and keeps the
table length: no other mutation of the stream table occurs. -/
theorem generate_frame (n j i : Nat) (anti : Bool) (st : RngState)
    (hn : 1 ≤ n) (hj : j < st.streams.length) :
    Option.map (fun p => p.2.streams.get? i)
        (generateUniforms n (j : Int) anti st)
      = some (if i = j
              then (st.streams.get? j).map (MT19937.advance^[n])
              else st.streams.get? i)
    ∧ Option.map (fun p => p.2.streams.length)
        (generateUniforms n (j : Int) anti st)
      = some st.streams.length := by
  rw [generateUniforms_spec n j anti st hn hj]
  constructor
  · rw [Option.map_some']
    by_cases he : i = j
    · subst he
      rw [if_pos rfl, get?_streamAt st i hj, Option.map_some']
      exact congrArg some (List.get?_set_eq_of_lt _ hj)
    · rw [if_neg he]
      exact congrArg some (List.get?_set_ne _ _ (fun hc => he hc.symm))
  · rw [Option.map_some']
    exact congrArg some (List.length_set _ _ _)

theorem generate_frame_witness :
    Option.map (fun p => p.2.streams.get? 0)
        (generateUniforms 2 0 false (setSeed 0 ⟨[]⟩))
      = some (((setSeed 0 ⟨[]⟩).streams.get? 0).map (MT19937.advance^[2]))
    ∧ Option.map (fun p => p.2.streams.get? 5)
        (generateUniforms 2 0 false (setSeed 0 ⟨[]⟩))
      = some ((setSeed 0 ⟨[]⟩).streams.get? 5) := by
  have h1 := (generate_frame 2 0 0 false (setSeed 0 ⟨[]⟩) (by decide)
    (by rw [setSeed_length]; decide)).1
  have h2 := (generate_frame 2 0 5 false (setSeed 0 ⟨[]⟩) (by decide)
    (by rw [setSeed_length]; decide)).1
  rw [if_pos rfl] at h1
  rw [if_neg (by decide)] at h2
  exact ⟨h1, h2⟩

set_option maxRecDepth 16000 in
/-- Claim C6 (code bug): `vnorm`'s flag loop reads
`for _ in [antithetic, as_dict]: _checkType(antithetic, bool)` — it checks
`antithetic` twice and never checks `as_dict`, so its validation passes
for EVERY `as_dict` value and a non-boolean `as_dict` flows through to a
full draw that returns a record; moreover `_checkType(x, bool)` on an
int-valued flag raises KeyError (the `type_map[bool]` subscript), not the
documented TypeError. -/
theorem type_error_enforcement_bug :
    (∀ v : PyVal, vnormChecks (.int 1) (.float 0) (.float 1) (.int 0)
        (.bool false) v = .ok ())
    ∧ Prod.fst (vnorm (.int 1) (.float 0) (.float 1) (.int 0)
        (.bool false) (.int 2) (setSeed 0 ⟨[]⟩))
        = .ok (.record (.scalar 0) (.scalar 0))
    ∧ (∀ st : RngState,
      vunif (.int 1) (.float 0) (.float 1) (.int 0) (.int 1)
        (.bool false) st = (.error .keyError, st)) :=
  ⟨fun _ => rfl, by with_unfolding_all decide, fun _ => rfl⟩

theorem streamAt_setSeed (s : Nat) (p : RngState) (j : Nat)
    (hj : j < NUM_STREAMS) :
    streamAt (setSeed s p) j
      = MT19937.jumped^[j] (MT19937.ofSeedSeq s) := by
  have h : (setSeed s p).streams.get? j
      = some (MT19937.jumped^[j] (MT19937.ofSeedSeq s)) :=
    buildStreams_get? _ _ j hj
  unfold streamAt
  rw [h]
  rfl

theorem rngUniform_isSome (j : Nat) (st : RngState)
    (hj : j < st.streams.length) :
    (rngUniform 0 1 (j : Int) st).isSome = true := by
  rw [rngUniform_spec j st hj]
  rfl

theorem rngUniform_wrap (i : Int) (st : RngState)
    (h : st.streams.length = NUM_STREAMS) (hge : -(NUM_STREAMS : Int) ≤ i)
    (hlt : i < 0) :
    rngUniform 0 1 i st = rngUniform 0 1 (i + (NUM_STREAMS : Int)) st := by
  have hnum : st.streams.length = 128 := h
  have hge2 : -(128 : Int) ≤ i := hge
  have hL : pyNormIdx st.streams.length i
      = some (128 - (-i).toNat) := by
    unfold pyNormIdx
    rw [hnum, if_neg (by omega), if_pos (by omega)]
  have hR : pyNormIdx st.streams.length (i + (NUM_STREAMS : Int))
      = some ((i + (NUM_STREAMS : Int)).toNat) := by
    unfold pyNormIdx
    have hc : ((NUM_STREAMS : Nat) : Int) = 128 := rfl
    rw [hnum, hc, if_pos (by omega), if_pos (by omega)]
  have heq : (128 : Nat) - (-i).toNat = (i + (NUM_STREAMS : Int)).toNat := by
    have hc : ((NUM_STREAMS : Nat) : Int) = 128 := rfl
    rw [hc]
    omega
  rw [rngUniform, rngUniform, hL, hR, heq]

/-- Claim C7 (amended): `rng.uniform` fails with an IndexError-class
condition exactly for stream indices `≥ numStreams()` or
`< -numStreams()`; a negative index `i` with `-numStreams() ≤ i ≤ -1` is
NOT an error — Python list indexing silently wraps it around and the draw
is served from (and advances) table entry `numStreams() + i`. -/
theorem stream_index_wraparound (i : Int) (st : RngState)
    (h : st.streams.length = NUM_STREAMS) :
    (((NUM_STREAMS : Int) ≤ i ∨ i < -(NUM_STREAMS : Int)) →
        rngUniform 0 1 i st = none)
    ∧ (-(NUM_STREAMS : Int) ≤ i → i < 0 →
        rngUniform 0 1 i st
          = rngUniform 0 1 (i + (NUM_STREAMS : Int)) st) := by
  have hnum : st.streams.length = 128 := h
  refine ⟨?_, rngUniform_wrap i st h⟩
  intro hor
  have hor2 : (128 : Int) ≤ i ∨ i < -(128 : Int) := hor
  have hidx : pyNormIdx st.streams.length i = none := by
    unfold pyNormIdx
    rw [hnum]
    rcases hor2 with h1 | h2
    · rw [if_pos (by omega), if_neg (by omega)]
    · rw [if_neg (by omega), if_neg (by omega)]
  rw [rngUniform, hidx]

/-- Claim C7 counterexample: `rng.uniform` at stream index `-1` does not
raise IndexError — it succeeds, serving the draw from table entry 127. -/
theorem stream_index_counterexample :
    (rngUniform 0 1 (-1) (setSeed 0 ⟨[]⟩)).isSome = true
    ∧ rngUniform 0 1 (-1) (setSeed 0 ⟨[]⟩)
        = rngUniform 0 1 127 (setSeed 0 ⟨[]⟩) := by
  have hw := rngUniform_wrap (-1) (setSeed 0 ⟨[]⟩) (setSeed_length 0 ⟨[]⟩)
    (by decide) (by decide)
  have h127 : ((-1 : Int) + (NUM_STREAMS : Int)) = ((127 : Nat) : Int) := by
    decide
  rw [h127] at hw
  refine ⟨?_, hw⟩
  rw [hw]
  exact rngUniform_isSome 127 (setSeed 0 ⟨[]⟩) (by rw [setSeed_length]; decide)

theorem stream_index_wraparound_witness :
    rngUniform 0 1 200 (setSeed 0 ⟨[]⟩) = none
    ∧ rngUniform 0 1 (-5) (setSeed 0 ⟨[]⟩)
        = rngUniform 0 1 (-5 + (NUM_STREAMS : Int)) (setSeed 0 ⟨[]⟩) := by
  have h1 := stream_index_wraparound 200 (setSeed 0 ⟨[]⟩)
    (setSeed_length 0 ⟨[]⟩)
  have h2 := stream_index_wraparound (-5) (setSeed 0 ⟨[]⟩)
    (setSeed_length 0 ⟨[]⟩)
  exact ⟨h1.1 (Or.inl (by decide)), h2.2 (by decide) (by decide)⟩

/-- Claim C8 (amended): every value `_generateUniforms` returns lies in
[0,1) when `antithetic` is false; when `antithetic` is true the values lie
in the half-open interval (0,1] instead — the endpoint 1 is attained
exactly when the raw draw is 0, so the antithetic output is not always
inside [0,1). -/
theorem uniform_draw_range (n j : Nat) (anti : Bool) (st : RngState)
    (r : UniformsResult) (st2 : RngState) (hn : 1 ≤ n)
    (hj : j < st.streams.length)
    (h : generateUniforms n (j : Int) anti st = some (r, st2)) :
    r.allVals (fun u =>
      if anti then 0 < u ∧ u ≤ 1 else 0 ≤ u ∧ u < 1) := by
  rw [generateUniforms_spec n j anti st hn hj] at h
  simp only [Option.some.injEq, Prod.mk.injEq] at h
  obtain ⟨h1, -⟩ := h
  subst h1
  unfold uniformsModel
  by_cases h1 : n = 1
  · rw [if_pos h1]
    have hb := nextU01_bounds (streamAt st j)
    cases anti with
    | false =>
      simpa [UniformsResult.allVals, adjustAnti] using hb
    | true =>
      simp only [UniformsResult.allVals, adjustAnti, if_true, if_pos rfl]
      constructor
      · linarith [hb.2]
      · linarith [hb.1]
  · rw [if_neg h1]
    intro u hu
    rcases List.mem_map.mp hu with ⟨v, hv, rfl⟩
    have hb := drawList_mem_bounds n (streamAt st j) v hv
    cases anti with
    | false =>
      simpa [adjustAnti] using hb
    | true =>
      simp only [adjustAnti, if_true, if_pos rfl]
      constructor
      · linarith [hb.2]
      · linarith [hb.1]

/-- Claim C8 counterexample: after `set_seed(0)` the first raw draw on
stream 0 is exactly 0, so the antithetic draw `1 - 0` is exactly 1 —
outside the half-open interval [0,1). -/
theorem uniform_draw_range_counterexample :
    Option.map Prod.fst (generateUniforms 1 0 true (setSeed 0 ⟨[]⟩))
      = some (.scalar 1)
    ∧ ¬((0 : ℚ) ≤ 1 ∧ (1 : ℚ) < 1) := by
  constructor
  · show Option.map Prod.fst
        (generateUniforms 1 ((0 : Nat) : Int) true (setSeed 0 ⟨[]⟩))
      = some (.scalar 1)
    rw [generateUniforms_spec 1 0 true (setSeed 0 ⟨[]⟩) (by decide)
      (by rw [setSeed_length]; decide)]
    rw [Option.map_some']
    rw [streamAt_setSeed 0 ⟨[]⟩ 0 (by decide)]
    rw [show MT19937.jumped^[0] (MT19937.ofSeedSeq 0)
          = MT19937.ofSeedSeq 0 from rfl]
    rw [show uniformsModel 1 true (MT19937.ofSeedSeq 0)
          = UniformsResult.scalar 1 from by with_unfolding_all decide]
  · rintro ⟨-, hc⟩
    exact lt_irrefl 1 hc

theorem uniform_draw_range_witness :
    (UniformsResult.scalar (0 : ℚ)).allVals (fun u =>
      if (false : Bool) then 0 < u ∧ u ≤ 1 else 0 ≤ u ∧ u < 1) :=
  uniform_draw_range 1 0 false (setSeed 0 ⟨[]⟩) (.scalar 0)
    ⟨(setSeed 0 ⟨[]⟩).streams.set 0
      (MT19937.advance^[1] (streamAt (setSeed 0 ⟨[]⟩) 0))⟩
    (by decide) (by rw [setSeed_length]; decide)
    (by
      rw [generateUniforms_spec 1 0 false (setSeed 0 ⟨[]⟩) (by decide)
        (by rw [setSeed_length]; decide)]
      rw [streamAt_setSeed 0 ⟨[]⟩ 0 (by decide)]
      rw [show MT19937.jumped^[0] (MT19937.ofSeedSeq 0)
            = MT19937.ofSeedSeq 0 from rfl]
      rw [show uniformsModel 1 false (MT19937.ofSeedSeq 0)
            = UniformsResult.scalar 0 from by with_unfolding_all decide])

theorem vunif_ok_unfold (n mn mx stream anti asd : PyVal) (st : RngState)
    (hc : vunifChecks n mn mx stream anti asd = .ok ()) :
    vunif n mn mx stream anti asd st
      = match generateUniforms n.toIntVal.toNat stream.toIntVal
          anti.truthy st with
        | none => (.error .indexError, st)
        | some (u, st1) =>
          if asd.truthy
          then (.ok (.record u
                 (applyPpf (uniformPpf mn.toQVal (mx.toQVal - mn.toQVal)) u)),
                st1)
          else (.ok (applyPpf (uniformPpf mn.toQVal (mx.toQVal - mn.toQVal))
                  u).toVariate,
                st1) := by
  unfold vunif
  rw [hc]

set_option maxRecDepth 16000 in
/-- Claim C4 counterexample: with `n = 1` and `as_dict` true, `vunif`
returns a record whose two fields are scalars — not ordered sequences of
length 1 as the claim requires. -/
theorem shape_preservation_counterexample :
    Prod.fst (vunif (.int 1) (.float 0) (.float 1) (.int 0) (.bool false)
        (.bool true) (setSeed 0 ⟨[]⟩))
      = .ok (.record (.scalar 0) (.scalar 0)) := by
  with_unfolding_all decide

/-- Claim C4 (amended): for valid arguments, `vunif` with `n = 1` yields a
scalar and with `n > 1` a sequence of exactly `n` elements in generation
order; when `as_dict` is true the result is the record of the drawn
uniforms `u` and their elementwise quantile images `x` — two
index-aligned sequences of length `n` when `n > 1`, but two scalars (not
length-1 sequences) when `n = 1`, with `x` the quantile image of `u`. -/
theorem shape_preservation (n j : Nat) (mn mx : ℚ) (anti asd : Bool)
    (st : RngState) (hn : 1 ≤ n) (hlen : st.streams.length = NUM_STREAMS)
    (hj : j < NUM_STREAMS) (hm : mn ≤ mx) :
    vunif (.int (n : Int)) (.float mn) (.float mx) (.int (j : Int))
        (.bool anti) (.bool asd) st
      = (.ok (if asd
              then .record (uniformsModel n anti (streamAt st j))
                     (applyPpf (uniformPpf mn (mx - mn))
                       (uniformsModel n anti (streamAt st j)))
              else (applyPpf (uniformPpf mn (mx - mn))
                      (uniformsModel n anti (streamAt st j))).toVariate),
         ⟨st.streams.set j (MT19937.advance^[n] (streamAt st j))⟩)
    ∧ (uniformsModel n anti (streamAt st j)).shape
        = (if n = 1 then none else some n)
    ∧ (applyPpf (uniformPpf mn (mx - mn))
          (uniformsModel n anti (streamAt st j))).shape
        = (uniformsModel n anti (streamAt st j)).shape := by
  have hjlen : j < st.streams.length := by rw [hlen]; exact hj
  refine ⟨?_, ?_, applyPpf_shape _ _⟩
  · rw [vunif_ok_unfold _ _ _ _ _ _ st
      (vunifChecks_ok n j mn mx anti asd hn hj hm)]
    simp only [PyVal.toIntVal, PyVal.truthy, PyVal.toQVal, PyVal.asNum,
      Option.getD_some, Int.toNat_natCast]
    rw [generateUniforms_spec n j anti st hn hjlen]
    by_cases ha : asd <;> simp [ha]
  · unfold uniformsModel UniformsResult.shape
    by_cases h1 : n = 1
    · simp [h1]
    · simp [h1, drawList_length]

theorem shape_preservation_witness :
    vunif (.int ((2 : Nat) : Int)) (.float 0) (.float 1)
        (.int ((0 : Nat) : Int)) (.bool false) (.bool true) (setSeed 0 ⟨[]⟩)
      = (.ok (if true
              then .record
                     (uniformsModel 2 false (streamAt (setSeed 0 ⟨[]⟩) 0))
                     (applyPpf (uniformPpf 0 (1 - 0))
                       (uniformsModel 2 false (streamAt (setSeed 0 ⟨[]⟩) 0)))
              else (applyPpf (uniformPpf 0 (1 - 0))
                      (uniformsModel 2 false
                        (streamAt (setSeed 0 ⟨[]⟩) 0))).toVariate),
         ⟨(setSeed 0 ⟨[]⟩).streams.set 0
           (MT19937.advance^[2] (streamAt (setSeed 0 ⟨[]⟩) 0))⟩)
    ∧ (uniformsModel 2 false (streamAt (setSeed 0 ⟨[]⟩) 0)).shape
        = (if 2 = 1 then none else some 2)
    ∧ (applyPpf (uniformPpf 0 (1 - 0))
          (uniformsModel 2 false (streamAt (setSeed 0 ⟨[]⟩) 0))).shape
        = (uniformsModel 2 false (streamAt (setSeed 0 ⟨[]⟩) 0)).shape :=
  shape_preservation 2 0 0 1 false true (setSeed 0 ⟨[]⟩) (by decide)
    (setSeed_length 0 ⟨[]⟩) (by decide) (by norm_num)

end SimEd
